import Mathlib

/-!
Shallow embedding of `src/satcat.js` (class `SatCat extends Array`) from the
otk-data-handlers repository, together with proofs about its filter
operations.

Modelling conventions:
* A satellite record is a JSON object; each field used by a filter is a
  `JSVal`: absent (`undef`), `null`, a string, or a finite number.  JSON data
  cannot contain `NaN`, so `JSVal.num` carries an exact rational; the `NaN`
  produced by JavaScript `Number()` coercion is represented by `none` in
  `Option ℚ`.
* JavaScript `Array.prototype.filter` does not mutate the receiver and the
  `SatCat` constructor reached through `ArraySpeciesCreate` only copies
  elements, so every method is embedded as a pure function from a view to a
  new view; "the receiver is left unchanged" holds by construction.
* Numeric method parameters are embedded as `ℚ` (finite JavaScript numbers);
  the `years` argument of `filterByLaunchYears` is `List (Option ℚ)` because
  `Array.prototype.includes` uses SameValueZero, under which `NaN` equals
  `NaN`, and the list is compared against a coerced (possibly-`NaN`) value.
-/

/-- A JavaScript value as it can occur in a parsed JSON satellite record:
absent (`undefined`), `null`, a string, or a finite number. -/
inductive JSVal where
  | undef : JSVal
  | null : JSVal
  | str : String → JSVal
  | num : ℚ → JSVal
deriving DecidableEq, Repr

/-- Whitespace for the purpose of `Number(string)` coercion (the common
ASCII whitespace characters). -/
def isJsSpace (c : Char) : Bool :=
  c = ' ' || c = '\t' || c = '\n' || c = '\r' || c = '\x0c' || c = '\x0b'

/-- Strip leading and trailing whitespace from a character list. -/
def trimChars (cs : List Char) : List Char :=
  ((cs.dropWhile isJsSpace).reverse.dropWhile isJsSpace).reverse

/-- Numeric value of a decimal digit character. -/
def digitToNat (c : Char) : ℕ := c.toNat - 48

/-- Value of a digit string read as a natural number (most significant first). -/
def natOfDigits (cs : List Char) : ℕ :=
  cs.foldl (fun acc c => 10 * acc + digitToNat c) 0

/-- Value of a digit string read as the fractional part after a decimal
point: `fracOfDigits ['2','5'] = 1/4`. -/
def fracOfDigits (cs : List Char) : ℚ :=
  cs.foldr (fun c acc => ((digitToNat c : ℚ) + acc) / 10) 0

/-- Parse an unsigned decimal literal (`123`, `123.45`, `.5`, `123.`);
`none` models `NaN`.  This models the decimal fragment of the JavaScript
`StringNumericLiteral` grammar; exponent, hex, binary, octal and `Infinity`
forms do not occur in the satellite-catalog data and are out of the
modelled fragment (they would parse to `none` here). -/
def parseUnsignedDecimal (cs : List Char) : Option ℚ :=
  let intPart := cs.takeWhile Char.isDigit
  let rest := cs.drop intPart.length
  match rest with
  | [] => if intPart.isEmpty then none else some (natOfDigits intPart : ℚ)
  | '.' :: frac =>
    if frac.all Char.isDigit && !(intPart.isEmpty && frac.isEmpty) then
      some ((natOfDigits intPart : ℚ) + fracOfDigits frac)
    else none
  | _ => none

/-- JavaScript `Number(string)`: trim whitespace, empty string is `0`,
otherwise an optionally signed decimal literal; anything else is `NaN`
(`none`). -/
def strToNumber (s : String) : Option ℚ :=
  match trimChars s.toList with
  | [] => some 0
  | '-' :: rest => (parseUnsignedDecimal rest).map (fun q => -q)
  | '+' :: rest => parseUnsignedDecimal rest
  | cs => parseUnsignedDecimal cs

/-- JavaScript `Number(v)` on the values a record field can hold:
`Number(undefined) = NaN`, `Number(null) = 0`, numbers unchanged, strings
via `strToNumber`. -/
def toNumber : JSVal → Option ℚ
  | .undef => none
  | .null => some 0
  | .num q => some q
  | .str s => strToNumber s

/-- JavaScript string coercion of a field value, as fed to `RegExp.test`.
Number-valued fields in the catalog are integers; the non-integer case
prints `num/den` (never exercised by the data model, where numeric ids are
integral). -/
def jsToString : JSVal → String
  | .undef => "undefined"
  | .null => "null"
  | .str s => s
  | .num q =>
    if q.den = 1 then
      (if q.num < 0 then "-" ++ toString q.num.natAbs else toString q.num.natAbs)
    else toString q.num ++ "/" ++ toString q.den

/-- `Array.prototype.includes` on an array of string literals, compared
against a record field: SameValueZero, which on a string list degenerates
to strict equality, so a field holding a number never matches. -/
def jsIncludesStr (l : List String) (v : JSVal) : Bool :=
  l.any (fun s => v == JSVal.str s)

example : strToNumber "1998" = some 1998 := by decide
example : strToNumber " 417 " = some 417 := by decide
example : (strToNumber "51.6").isSome = true := by decide
example : strToNumber "" = some 0 := by decide
example : strToNumber "N/A" = none := by decide
example : (strToNumber "-2.5").isSome = true := by decide
example : strToNumber "." = none := by decide
example : strToNumber "-" = none := by decide
example : toNumber JSVal.null = some 0 := by decide
example : toNumber JSVal.undef = none := by decide
example : jsIncludesStr ["PAYLOAD"] (JSVal.str "PAYLOAD") = true := by decide
example : jsIncludesStr ["25544"] (JSVal.num 25544) = false := by decide

/-!
Model of the JavaScript `RegExp` objects built by `new RegExp(pattern, 'i')`
and used through `regex.test(s)` in `filterByNamePattern` and
`filterByNoradIdPattern`.  `RegExp` is a runtime builtin, not repository
code, so it is modelled on the fragment the library exercises: literal
characters, `.`, escapes, `^`/`$` anchors, character classes (without
ranges), groups, and the quantifiers `*`, `+`, `?`.  Malformed syntax in
this fragment (unterminated group or class, dangling quantifier, trailing
backslash, unmatched close paren) is a compilation error, mirroring the
`SyntaxError` thrown by `new RegExp`.  Matching is by Brzozowski
derivatives; `test` looks for a match anywhere in the input unless
anchored, as `RegExp.prototype.test` does.
-/

/-- Regular-expression abstract syntax (after anchors are stripped). -/
inductive Re where
  | fail : Re
  | eps : Re
  | lit : Char → Re
  | dot : Re
  | cls : Bool → List Char → Re
  | cat : Re → Re → Re
  | alt : Re → Re → Re
  | star : Re → Re
deriving DecidableEq, Repr

/-- Does the language of `r` contain the empty string? -/
def Re.nullable : Re → Bool
  | .fail => false
  | .eps => true
  | .lit _ => false
  | .dot => false
  | .cls _ _ => false
  | .cat a b => a.nullable && b.nullable
  | .alt a b => a.nullable || b.nullable
  | .star _ => true

/-- Brzozowski derivative of `r` with respect to the character `x`. -/
def Re.deriv : Re → Char → Re
  | .fail, _ => .fail
  | .eps, _ => .fail
  | .lit c, x => if x = c then .eps else .fail
  | .dot, _ => .eps
  | .cls neg cs, x => if (cs.contains x) != neg then .eps else .fail
  | .cat a b, x =>
    if a.nullable then .alt (.cat (a.deriv x) b) (b.deriv x)
    else .cat (a.deriv x) b
  | .alt a b, x => .alt (a.deriv x) (b.deriv x)
  | .star a, x => .cat (a.deriv x) (.star a)

/-- Whole-list matching via iterated derivatives. -/
def Re.matchList (r : Re) (cs : List Char) : Bool :=
  (cs.foldl Re.deriv r).nullable

/-- Read a character-class body up to the closing bracket; returns the
class characters and the rest of the pattern, or `none` when the class is
unterminated. -/
def parseClassBody : List Char → Option (List Char × List Char)
  | [] => none
  | ']' :: rest => some ([], rest)
  | '\\' :: [] => none
  | '\\' :: c :: rest => (parseClassBody rest).map (fun p => (c :: p.1, p.2))
  | c :: rest => (parseClassBody rest).map (fun p => (c :: p.1, p.2))

/-- Parse a pattern sequence up to the end of input or an unconsumed `)`;
`fuel` strictly exceeds the remaining input length at every call, so the
`0` case is unreachable from `compileRegex`. -/
def parseSeq (fuel : ℕ) (cs : List Char) : Except String (Re × List Char) :=
  match fuel, cs with
  | 0, _ => .error "pattern too long"
  | _, [] => .ok (.eps, [])
  | _ + 1, ')' :: rest => .ok (.eps, ')' :: rest)
  | f + 1, c :: rest =>
    let atomResult : Except String (Re × List Char) :=
      if c = '(' then
        match parseSeq f rest with
        | .error e => .error e
        | .ok (g, rest1) =>
          match rest1 with
          | ')' :: rest2 => .ok (g, rest2)
          | _ => .error "Unterminated group"
      else if c = '*' || c = '+' || c = '?' then .error "Nothing to repeat"
      else if c = '[' then
        match parseClassBody rest with
        | none => .error "Unterminated character class"
        | some (body, rest1) =>
          match body with
          | '^' :: negBody => .ok (.cls true negBody, rest1)
          | _ => .ok (.cls false body, rest1)
      else if c = '\\' then
        match rest with
        | [] => .error "trailing backslash"
        | e :: rest1 => .ok (.lit e, rest1)
      else if c = '.' then .ok (.dot, rest)
      else if c = '^' || c = '$' then .ok (.fail, rest)
      else .ok (.lit c, rest)
    match atomResult with
    | .error e => .error e
    | .ok (atom, rest1) =>
      let quantified : Re × List Char :=
        match rest1 with
        | '*' :: r2 => (Re.star atom, r2)
        | '+' :: r2 => (Re.cat atom (Re.star atom), r2)
        | '?' :: r2 => (Re.alt atom Re.eps, r2)
        | _ => (atom, rest1)
      match parseSeq f quantified.2 with
      | .error e => .error e
      | .ok (tl, rest3) => .ok (Re.cat quantified.1 tl, rest3)

/-- Extend an unanchored side of the pattern with `Σ*`, so that `test`
searches for a match anywhere in the input, as `RegExp.prototype.test`
does. -/
def wrapRe (r : Re) (aStart aEnd : Bool) : Re :=
  let r1 := if aStart then r else Re.cat (Re.star Re.dot) r
  if aEnd then r1 else Re.cat r1 (Re.star Re.dot)

/-- A compiled regular expression: the `RegExp` object. -/
structure CompiledRegex where
  re : Re
  ignoreCase : Bool
deriving DecidableEq, Repr

/-- Last stage of compilation: reject a parse error or an unconsumed
close paren, otherwise build the `RegExp` object with its flag. -/
def compileAux (ignoreCase : Bool) (x : Except String (Re × List Char))
    (aStart aEnd : Bool) : Except String CompiledRegex :=
  match x with
  | .error e => .error e
  | .ok (r, rest) =>
    match rest with
    | [] => .ok ⟨wrapRe r aStart aEnd, ignoreCase⟩
    | _ => .error "Unmatched close paren"

/-- `new RegExp(pattern, flags)`: case folding for the `i` flag is applied
to the pattern here and to the input in `test`; a leading `^` and an
unescaped trailing `$` become anchors; the rest is parsed by `parseSeq`.
Returns `Except.error` on malformed syntax, as `new RegExp` throws
`SyntaxError`. -/
def compileRegex (pattern : String) (ignoreCase : Bool) : Except String CompiledRegex :=
  let cs0 := pattern.toList
  let cs1 := if ignoreCase then cs0.map Char.toLower else cs0
  let startStripped : Bool × List Char :=
    match cs1 with
    | '^' :: rest => (true, rest)
    | _ => (false, cs1)
  let endStripped : Bool × List Char :=
    match startStripped.2.reverse with
    | '$' :: before =>
      if (before.takeWhile (fun c => c = '\\')).length % 2 = 0 then
        (true, before.reverse)
      else (false, startStripped.2)
    | _ => (false, startStripped.2)
  compileAux ignoreCase (parseSeq (endStripped.2.length + 1) endStripped.2)
    startStripped.1 endStripped.1

/-- `RegExp.prototype.test`: with the `i` flag both the pattern (in
`compileRegex`) and the input are folded to lower case. -/
def CompiledRegex.test (r : CompiledRegex) (s : String) : Bool :=
  let cs := if r.ignoreCase then s.toList.map Char.toLower else s.toList
  r.re.matchList cs

/-- The `PatternError` of the specification: the message of the
`SyntaxError` thrown by `new RegExp` on malformed pattern syntax. -/
abbrev PatternError := String

/-- Extract the compiled regex from a successful compilation (default used
only off the success path). -/
def okRegex (x : Except PatternError CompiledRegex) : CompiledRegex :=
  match x with
  | .ok r => r
  | .error _ => ⟨Re.fail, true⟩

example : (compileRegex "(" true).isOk = false := by decide
example : (compileRegex "*" true).isOk = false := by decide
example : (compileRegex "[ab" true).isOk = false := by decide
example : (compileRegex ")" true).isOk = false := by decide
example : (compileRegex "^STARLINK" true).isOk = true := by decide
example : (okRegex (compileRegex "^starlink" true)).test "STARLINK-30" = true := by decide
example : (okRegex (compileRegex "^starlink" true)).test "XSTARLINK" = false := by decide
example : (okRegex (compileRegex "A$" true)).test "ZARYA" = true := by decide
example : (okRegex (compileRegex "A$" true)).test "AX" = false := by decide
example : (okRegex (compileRegex "iss" true)).test "ISS (ZARYA)" = true := by decide
example : (okRegex (compileRegex "z.r" true)).test "ZARYA" = true := by decide
example : (okRegex (compileRegex "ab*c" true)).test "xabbbcy" = true := by decide
example : (okRegex (compileRegex "ab+c" true)).test "xacy" = false := by decide
example : (okRegex (compileRegex "a(bc)+d" true)).test "abcbcd" = true := by decide
example : (okRegex (compileRegex "[xyz]5" true)).test "AY55" = true := by decide
example : (okRegex (compileRegex "[^xyz]5" true)).test "Y5" = false := by decide
example : (okRegex (compileRegex "colou?r" true)).test "COLOR" = true := by decide
example : (okRegex (compileRegex "255" true)).test "25544" = true := by decide

/-!
The `SatCat` class itself (`src/satcat.js`).  `fromJSON` / `fromURL` only
delegate to external collaborators (`require`, `fetch`) and wrap the
resulting record array; the in-memory behavior under verification is the
constructor's copy of the record sequence and the ten filter methods.
-/

/-- A satellite record, restricted to the fields the filter methods read
(the class treats records as opaque otherwise). -/
structure SatRecord where
  OBJECT_TYPE : JSVal
  SATNAME : JSVal
  COUNTRY : JSVal
  DECAY : JSVal
  LAUNCH_YEAR : JSVal
  PERIGEE : JSVal
  APOGEE : JSVal
  NORAD_CAT_ID : JSVal
  INCLINATION : JSVal
deriving DecidableEq, Repr

/-- The `SatCat` view: the ordered record sequence held by the
`Array` subclass. -/
structure SatCat where
  records : List SatRecord
deriving DecidableEq, Repr

/-- `this.length` of the array. -/
def SatCat.length (v : SatCat) : ℕ := v.records.length

/-- `this.filter(p)`: `Array.prototype.filter` builds a fresh `SatCat`
(via `ArraySpeciesCreate`) holding the elements satisfying `p` in order;
the receiver is untouched. -/
def SatCat.filter (v : SatCat) (p : SatRecord → Bool) : SatCat :=
  ⟨v.records.filter p⟩

/-- `filterByTypes(objectTypes)`:
`this.filter((sat) => objectTypes.includes(sat.OBJECT_TYPE))`. -/
def SatCat.filterByTypes (v : SatCat) (objectTypes : List String) : SatCat :=
  v.filter (fun sat => jsIncludesStr objectTypes sat.OBJECT_TYPE)

/-- `filterByNamePattern(pattern)`: `const regex = new RegExp(pattern, 'i');
return this.filter((sat) => regex.test(sat.SATNAME));` — a malformed
pattern throws before `filter` runs. -/
def SatCat.filterByNamePattern (v : SatCat) (pattern : String) :
    Except PatternError SatCat :=
  match compileRegex pattern true with
  | .error e => .error e
  | .ok regex => .ok (v.filter (fun sat => regex.test (jsToString sat.SATNAME)))

/-- `filterByCountryCodes(countryCodes)`:
`this.filter((sat) => countryCodes.includes(sat.COUNTRY))`. -/
def SatCat.filterByCountryCodes (v : SatCat) (countryCodes : List String) : SatCat :=
  v.filter (fun sat => jsIncludesStr countryCodes sat.COUNTRY)

/-- `filterByStillOnOrbit()`: `this.filter((sat) => sat.DECAY === null)` —
strict equality, so a missing `DECAY` (`undefined`) does not match. -/
def SatCat.filterByStillOnOrbit (v : SatCat) : SatCat :=
  v.filter (fun sat => sat.DECAY == JSVal.null)

/-- `filterByLaunchYears(years)`:
`this.filter((sat) => years.includes(Number(sat.LAUNCH_YEAR)))` —
`includes` uses SameValueZero, under which `NaN` (`none`) equals `NaN`. -/
def SatCat.filterByLaunchYears (v : SatCat) (years : List (Option ℚ)) : SatCat :=
  v.filter (fun sat => years.contains (toNumber sat.LAUNCH_YEAR))

/-- `filterByLaunchYearRange(startYear, endYear)`: coerce `LAUNCH_YEAR`
and test `launchYear >= startYear && launchYear <= endYear`; every
comparison with `NaN` is false. -/
def SatCat.filterByLaunchYearRange (v : SatCat) (startYear endYear : ℚ) : SatCat :=
  v.filter (fun sat =>
    match toNumber sat.LAUNCH_YEAR with
    | some launchYear => decide (startYear ≤ launchYear) && decide (launchYear ≤ endYear)
    | none => false)

/-- `filterByMaxPerigee(maxPerigee)`: coerce `PERIGEE` and test
`perigee <= maxPerigee`; false on `NaN`. -/
def SatCat.filterByMaxPerigee (v : SatCat) (maxPerigee : ℚ) : SatCat :=
  v.filter (fun sat =>
    match toNumber sat.PERIGEE with
    | some perigee => decide (perigee ≤ maxPerigee)
    | none => false)

/-- `filterByMinApogee(minApogee)`: coerce `APOGEE` and test
`apogee >= minApogee`; false on `NaN`. -/
def SatCat.filterByMinApogee (v : SatCat) (minApogee : ℚ) : SatCat :=
  v.filter (fun sat =>
    match toNumber sat.APOGEE with
    | some apogee => decide (minApogee ≤ apogee)
    | none => false)

/-- `filterByNoradIds(noradIds)`:
`this.filter((sat) => noradIds.includes(sat.NORAD_CAT_ID))` — the test
suite passes string ids, so the element type is `String`; `includes`
compares by SameValueZero (strict equality), with no coercion between a
number-valued field and a string element. -/
def SatCat.filterByNoradIds (v : SatCat) (noradIds : List String) : SatCat :=
  v.filter (fun sat => jsIncludesStr noradIds sat.NORAD_CAT_ID)

/-- `filterByNoradIdPattern(pattern)`: `const regex = new RegExp(pattern,
'i'); return this.filter((sat) => regex.test(sat.NORAD_CAT_ID));` — the
field is string-coerced by `test`. -/
def SatCat.filterByNoradIdPattern (v : SatCat) (pattern : String) :
    Except PatternError SatCat :=
  match compileRegex pattern true with
  | .error e => .error e
  | .ok regex => .ok (v.filter (fun sat => regex.test (jsToString sat.NORAD_CAT_ID)))

/-- The instance methods the `SatCat` class body defines (source lines
59-188); `Array.prototype` adds no `filterBy...` methods, so a name
outside this list is not a callable method of a `SatCat` instance. -/
def SatCat.instanceMethodNames : List String :=
  ["filterByTypes", "filterByNamePattern", "filterByCountryCodes",
   "filterByStillOnOrbit", "filterByLaunchYears", "filterByLaunchYearRange",
   "filterByMaxPerigee", "filterByMinApogee", "filterByNoradIds",
   "filterByNoradIdPattern"]

/-- Modelled from the spec: `filterByInclinationRange` is called by the
repository's test suite (`tests/index.test.js` lines 83-87) but is missing
from the `SatCat` class under `src/`; modelled per spec §4.1
(`min ≤ numeric(record.INCLINATION) ≤ max`, per the pattern of the other
numeric range filters). -/
def SatCat.filterByInclinationRange (v : SatCat) (minInc maxInc : ℚ) : SatCat :=
  v.filter (fun sat =>
    match toNumber sat.INCLINATION with
    | some inc => decide (minInc ≤ inc) && decide (inc ≤ maxInc)
    | none => false)

/-!  Helper predicates, sample data and general lemmas. -/

/-- `out` is exactly the order-preserving subsequence of `inp` whose
elements satisfy `p` (hence also no longer than `inp`). -/
def IsFilterOf (out inp : SatCat) (p : SatRecord → Bool) : Prop :=
  out.records = inp.records.filter p
    ∧ List.Sublist out.records inp.records
    ∧ out.length ≤ inp.length

/-- The relevant field is a value JavaScript `Number()` sends to `NaN`:
absent, or a string that is not a numeric literal. -/
def NonNumericField (x : JSVal) : Prop :=
  x = JSVal.undef ∨ ∃ s, x = JSVal.str s ∧ strToNumber s = none

theorem nonNumericField_toNumber {x : JSVal} (h : NonNumericField x) :
    toNumber x = none := by
  rcases h with h | ⟨s, rfl, hs⟩
  · subst h; rfl
  · simpa [toNumber] using hs

theorem satcat_mk_records (v : SatCat) : SatCat.mk v.records = v := rfl

theorem compileAux_ignoreCase {ic : Bool} {x : Except String (Re × List Char)}
    {aStart aEnd : Bool} {regex : CompiledRegex}
    (h : compileAux ic x aStart aEnd = Except.ok regex) :
    regex.ignoreCase = ic := by
  rcases x with e | ⟨r, rest⟩
  · exact absurd h (by simp [compileAux])
  · rcases rest with _ | ⟨c, rest⟩
    · rw [compileAux] at h
      cases h
      rfl
    · exact absurd h (by simp [compileAux])

theorem satcat_records_inj {v w : SatCat} (h : v.records = w.records) : v = w := by
  cases v; cases w; simpa using h

theorem satcat_filter_isFilterOf (v : SatCat) (p : SatRecord → Bool) :
    IsFilterOf (v.filter p) v p :=
  ⟨rfl, List.filter_sublist _, (List.filter_sublist _).length_le⟩

theorem satcat_filter_idem (v : SatCat) (p : SatRecord → Bool) :
    (v.filter p).filter p = v.filter p :=
  satcat_records_inj
    (List.filter_eq_self.mpr (fun _ ha => (List.mem_filter.mp ha).2))

theorem satcat_filter_comm (v : SatCat) (p q : SatRecord → Bool) :
    (v.filter p).filter q = (v.filter q).filter p := by
  refine satcat_records_inj ?_
  show (v.records.filter p).filter q = (v.records.filter q).filter p
  simp only [List.filter_filter]
  exact List.filter_congr (fun _ _ => by rw [Bool.and_comm])

/-- The list of all integers from `a` to `b` inclusive, as JavaScript
numbers: the argument `filterByLaunchYears` would be handed to emulate
`filterByLaunchYearRange(a, b)`. -/
def intYears (a b : ℤ) : List (Option ℚ) :=
  (List.range (b + 1 - a).toNat).map (fun i : ℕ => some (((a + (i : ℤ)) : ℤ) : ℚ))

theorem mem_intYears {a b n : ℤ} :
    (some ((n : ℤ) : ℚ)) ∈ intYears a b ↔ a ≤ n ∧ n ≤ b := by
  constructor
  · intro h
    obtain ⟨i, hi, heq⟩ := List.mem_map.mp h
    have hilt := List.mem_range.mp hi
    have hin : a + (i : ℤ) = n := by exact_mod_cast Option.some.inj heq
    omega
  · rintro ⟨h1, h2⟩
    refine List.mem_map.mpr ⟨(n - a).toNat, List.mem_range.mpr (by omega), ?_⟩
    have h3 : a + (((n - a).toNat : ℕ) : ℤ) = n := by omega
    rw [h3]

/-- Sample record: the ISS, all fields stored as strings, still on orbit. -/
def issSat : SatRecord :=
  { OBJECT_TYPE := JSVal.str "PAYLOAD", SATNAME := JSVal.str "ISS (ZARYA)",
    COUNTRY := JSVal.str "US", DECAY := JSVal.null,
    LAUNCH_YEAR := JSVal.str "1998", PERIGEE := JSVal.str "417",
    APOGEE := JSVal.str "423", NORAD_CAT_ID := JSVal.str "25544",
    INCLINATION := JSVal.str "52" }

/-- Sample record: a decayed object with non-numeric and absent fields. -/
def decayedSat : SatRecord :=
  { OBJECT_TYPE := JSVal.str "DEBRIS", SATNAME := JSVal.str "SL-1 R/B",
    COUNTRY := JSVal.str "CIS", DECAY := JSVal.str "1958-12-01",
    LAUNCH_YEAR := JSVal.str "N/A", PERIGEE := JSVal.undef,
    APOGEE := JSVal.str "unknown", NORAD_CAT_ID := JSVal.str "1",
    INCLINATION := JSVal.undef }

/-- Sample record whose `NORAD_CAT_ID` is stored as a number, and whose
`DECAY` field is absent. -/
def numIdSat : SatRecord :=
  { OBJECT_TYPE := JSVal.str "PAYLOAD", SATNAME := JSVal.str "FENGYUN 2C DEB",
    COUNTRY := JSVal.str "PRC", DECAY := JSVal.undef,
    LAUNCH_YEAR := JSVal.str "2004", PERIGEE := JSVal.str "35000",
    APOGEE := JSVal.str "36000", NORAD_CAT_ID := JSVal.num 25544,
    INCLINATION := JSVal.str "10" }

/-- A small concrete view used by the witnesses. -/
def sampleView : SatCat := ⟨[issSat, decayedSat, numIdSat]⟩

/-- The compiled form of `new RegExp('iss', 'i')`. -/
def regexIss : CompiledRegex := okRegex (compileRegex "iss" true)

/-- C1: every filter operation of the class (filterByTypes,
filterByNamePattern, filterByCountryCodes, filterByStillOnOrbit,
filterByLaunchYears, filterByLaunchYearRange, filterByMaxPerigee,
filterByMinApogee, filterByNoradIds, filterByNoradIdPattern) returns a new
view whose elements are exactly the records of the input satisfying the
operation's predicate, as an order-preserving subsequence (hence of length
at most the input's); the receiver is a pure input of every operation in
this embedding, so it is left unchanged by construction.  For the two
pattern filters the statement is conditional on successful pattern
compilation (the failure case is claim C5). -/
theorem c1_filters_are_exact_ordered_subsequences (v : SatCat)
    (types codes ids : List String) (years : List (Option ℚ))
    (y1 y2 mp ma : ℚ) (pat : String) :
    IsFilterOf (v.filterByTypes types) v
      (fun sat => jsIncludesStr types sat.OBJECT_TYPE)
    ∧ IsFilterOf (v.filterByCountryCodes codes) v
      (fun sat => jsIncludesStr codes sat.COUNTRY)
    ∧ IsFilterOf v.filterByStillOnOrbit v
      (fun sat => sat.DECAY == JSVal.null)
    ∧ IsFilterOf (v.filterByLaunchYears years) v
      (fun sat => years.contains (toNumber sat.LAUNCH_YEAR))
    ∧ IsFilterOf (v.filterByLaunchYearRange y1 y2) v
      (fun sat =>
        match toNumber sat.LAUNCH_YEAR with
        | some n => decide (y1 ≤ n) && decide (n ≤ y2)
        | none => false)
    ∧ IsFilterOf (v.filterByMaxPerigee mp) v
      (fun sat =>
        match toNumber sat.PERIGEE with
        | some n => decide (n ≤ mp)
        | none => false)
    ∧ IsFilterOf (v.filterByMinApogee ma) v
      (fun sat =>
        match toNumber sat.APOGEE with
        | some n => decide (ma ≤ n)
        | none => false)
    ∧ IsFilterOf (v.filterByNoradIds ids) v
      (fun sat => jsIncludesStr ids sat.NORAD_CAT_ID)
    ∧ (∀ regex, compileRegex pat true = Except.ok regex →
        v.filterByNamePattern pat
          = Except.ok (v.filter (fun sat => regex.test (jsToString sat.SATNAME)))
        ∧ IsFilterOf (v.filter (fun sat => regex.test (jsToString sat.SATNAME))) v
            (fun sat => regex.test (jsToString sat.SATNAME)))
    ∧ (∀ regex, compileRegex pat true = Except.ok regex →
        v.filterByNoradIdPattern pat
          = Except.ok (v.filter (fun sat => regex.test (jsToString sat.NORAD_CAT_ID)))
        ∧ IsFilterOf (v.filter (fun sat => regex.test (jsToString sat.NORAD_CAT_ID))) v
            (fun sat => regex.test (jsToString sat.NORAD_CAT_ID))) := by
  refine ⟨satcat_filter_isFilterOf v _, satcat_filter_isFilterOf v _,
    satcat_filter_isFilterOf v _, satcat_filter_isFilterOf v _,
    satcat_filter_isFilterOf v _, satcat_filter_isFilterOf v _,
    satcat_filter_isFilterOf v _, satcat_filter_isFilterOf v _, ?_, ?_⟩
  · intro regex h
    exact ⟨by simp [SatCat.filterByNamePattern, h], satcat_filter_isFilterOf v _⟩
  · intro regex h
    exact ⟨by simp [SatCat.filterByNoradIdPattern, h], satcat_filter_isFilterOf v _⟩

/-- Witness for C1 at a concrete view, with the pattern-compilation
hypotheses discharged at the pattern `iss`. -/
theorem c1_filters_witness :
    IsFilterOf (sampleView.filterByTypes ["PAYLOAD"]) sampleView
      (fun sat => jsIncludesStr ["PAYLOAD"] sat.OBJECT_TYPE)
    ∧ sampleView.filterByNamePattern "iss"
      = Except.ok (sampleView.filter (fun sat => regexIss.test (jsToString sat.SATNAME)))
    ∧ sampleView.filterByNoradIdPattern "iss"
      = Except.ok (sampleView.filter (fun sat => regexIss.test (jsToString sat.NORAD_CAT_ID))) := by
  have h := c1_filters_are_exact_ordered_subsequences sampleView
    ["PAYLOAD"] [] [] [] 0 0 0 0 "iss"
  exact ⟨h.1, (h.2.2.2.2.2.2.2.2.1 regexIss rfl).1,
    (h.2.2.2.2.2.2.2.2.2 regexIss rfl).1⟩

/-- C2 counterexample: a record whose `NORAD_CAT_ID` is stored as the
number `25544` is NOT kept by `filterByNoradIds(['25544'])`, although the
string form of its id is in the list — `Array.prototype.includes` uses
strict (SameValueZero) equality, which never equates a number with a
string. -/
theorem c2_noradIds_number_not_matched_by_string :
    numIdSat.NORAD_CAT_ID = JSVal.num 25544
    ∧ "25544" ∈ ["25544"]
    ∧ numIdSat ∉ (SatCat.filterByNoradIds ⟨[numIdSat]⟩ ["25544"]).records :=
  ⟨rfl, by decide, by decide⟩

/-- C2 (amended): `filterByNoradIds(ids)` keeps exactly the records whose
`NORAD_CAT_ID` is strictly equal (same type and value) to a member of
`ids`; in particular every kept record stores its id as a string that is
an element of `ids`, so a record whose id is stored as a number is never
kept. -/
theorem c2_noradIds_strict_string_equality (v : SatCat) (ids : List String)
    (r : SatRecord) :
    (v.filterByNoradIds ids).records
      = v.records.filter (fun sat => ids.any (fun s => sat.NORAD_CAT_ID == JSVal.str s))
    ∧ (r ∈ (v.filterByNoradIds ids).records →
        r ∈ v.records ∧ ∃ s ∈ ids, r.NORAD_CAT_ID = JSVal.str s)
    ∧ (r ∈ v.records → (∃ s ∈ ids, r.NORAD_CAT_ID = JSVal.str s) →
        r ∈ (v.filterByNoradIds ids).records) := by
  refine ⟨rfl, ?_, ?_⟩
  · intro hmem
    have h := List.mem_filter.mp hmem
    refine ⟨h.1, ?_⟩
    obtain ⟨s, hs, hbeq⟩ := List.any_eq_true.mp h.2
    exact ⟨s, hs, eq_of_beq hbeq⟩
  · intro hmem hex
    obtain ⟨s, hs, heq⟩ := hex
    refine List.mem_filter.mpr ⟨hmem, ?_⟩
    exact List.any_eq_true.mpr ⟨s, hs, by simp [heq]⟩

/-- Witness for C2's amended theorem: the ISS record, whose id is the
string `25544`, is kept by `filterByNoradIds(['25544'])`. -/
theorem c2_noradIds_witness :
    issSat ∈ (sampleView.filterByNoradIds ["25544"]).records :=
  (c2_noradIds_strict_string_equality sampleView ["25544"] issSat).2.2
    (by decide) ⟨"25544", by decide, rfl⟩

/-- C3: the claim (and the repository's own test suite) require a
`filterByInclinationRange` operation, but the `SatCat` class defines no
such method (and `Array.prototype` provides none), so the test's call
throws a `TypeError`; the second conjunct settles the intended behavior
against the spec-modelled operation `SatCat.filterByInclinationRange`:
it keeps exactly the records whose `INCLINATION` coerces to a number
within the inclusive bounds. -/
theorem c3_inclination_range_missing_from_class (v : SatCat) (minInc maxInc : ℚ) :
    SatCat.instanceMethodNames.contains "filterByInclinationRange" = false
    ∧ (v.filterByInclinationRange minInc maxInc).records
      = v.records.filter (fun sat =>
          match toNumber sat.INCLINATION with
          | some inc => decide (minInc ≤ inc) && decide (inc ≤ maxInc)
          | none => false) :=
  ⟨by decide, rfl⟩

/-- C4: for the four numeric filters, a record whose relevant field is a
non-numeric string or is absent coerces to `NaN`, every comparison (and
membership test against a list of actual numbers) involving `NaN` is
false, and the record is excluded; the filters are total functions in the
embedding, so the call itself never fails on such a record. -/
theorem c4_nonnumeric_fields_are_excluded (v : SatCat) (r : SatRecord)
    (years : List (Option ℚ)) (y1 y2 mp ma : ℚ) :
    (NonNumericField r.LAUNCH_YEAR → (none : Option ℚ) ∉ years →
      r ∉ (v.filterByLaunchYears years).records)
    ∧ (NonNumericField r.LAUNCH_YEAR →
      r ∉ (v.filterByLaunchYearRange y1 y2).records)
    ∧ (NonNumericField r.PERIGEE → r ∉ (v.filterByMaxPerigee mp).records)
    ∧ (NonNumericField r.APOGEE → r ∉ (v.filterByMinApogee ma).records) := by
  refine ⟨?_, ?_, ?_, ?_⟩
  · intro hnn hnone hmem
    have hp := (List.mem_filter.mp hmem).2
    rw [nonNumericField_toNumber hnn] at hp
    exact hnone (by simpa using hp)
  · intro hnn hmem
    have hp := (List.mem_filter.mp hmem).2
    rw [nonNumericField_toNumber hnn] at hp
    simp at hp
  · intro hnn hmem
    have hp := (List.mem_filter.mp hmem).2
    rw [nonNumericField_toNumber hnn] at hp
    simp at hp
  · intro hnn hmem
    have hp := (List.mem_filter.mp hmem).2
    rw [nonNumericField_toNumber hnn] at hp
    simp at hp

/-- Witness for C4: the decayed sample record has `LAUNCH_YEAR = 'N/A'`,
no `PERIGEE`, and `APOGEE = 'unknown'`, and is excluded by all four
numeric filters. -/
theorem c4_nonnumeric_witness :
    decayedSat ∉ (sampleView.filterByLaunchYears [some 2019]).records
    ∧ decayedSat ∉ (sampleView.filterByLaunchYearRange 1957 2026).records
    ∧ decayedSat ∉ (sampleView.filterByMaxPerigee 100000).records
    ∧ decayedSat ∉ (sampleView.filterByMinApogee 0).records := by
  have h := c4_nonnumeric_fields_are_excluded sampleView decayedSat
    [some 2019] 1957 2026 100000 0
  have hLY : NonNumericField decayedSat.LAUNCH_YEAR :=
    Or.inr ⟨"N/A", rfl, by decide⟩
  have hPG : NonNumericField decayedSat.PERIGEE := Or.inl rfl
  have hAP : NonNumericField decayedSat.APOGEE :=
    Or.inr ⟨"unknown", rfl, by decide⟩
  exact ⟨h.1 hLY (by decide), h.2.1 hLY, h.2.2.1 hPG, h.2.2.2 hAP⟩

/-- C5: when the pattern does not compile, `filterByNamePattern` and
`filterByNoradIdPattern` fail with the `PatternError` before any
filtering happens — no result view is produced (and the receiver, a pure
input, is unchanged); when it compiles, the regex carries the
case-insensitive flag and its match result is invariant under changing the
case of the input. -/
theorem c5_pattern_error_and_case_insensitivity (v : SatCat) (pattern : String) :
    (∀ e, compileRegex pattern true = Except.error e →
      v.filterByNamePattern pattern = Except.error e
      ∧ v.filterByNoradIdPattern pattern = Except.error e)
    ∧ (∀ regex, compileRegex pattern true = Except.ok regex →
      v.filterByNamePattern pattern
        = Except.ok (v.filter (fun sat => regex.test (jsToString sat.SATNAME)))
      ∧ v.filterByNoradIdPattern pattern
        = Except.ok (v.filter (fun sat => regex.test (jsToString sat.NORAD_CAT_ID)))
      ∧ regex.ignoreCase = true
      ∧ ∀ s t : String, s.toList.map Char.toLower = t.toList.map Char.toLower →
          regex.test s = regex.test t) := by
  constructor
  · intro e he
    exact ⟨by simp [SatCat.filterByNamePattern, he],
      by simp [SatCat.filterByNoradIdPattern, he]⟩
  · intro regex hr
    have hig : regex.ignoreCase = true := compileAux_ignoreCase hr
    refine ⟨by simp [SatCat.filterByNamePattern, hr],
      by simp [SatCat.filterByNoradIdPattern, hr], hig, ?_⟩
    intro s t hst
    simp only [CompiledRegex.test, hig, if_true, hst]

/-- Witness for C5: the pattern `(` (an unterminated group) makes both
pattern filters fail with the `PatternError` and no view; the compiled
case-insensitive pattern `iss` matches `ISS (ZARYA)` and its lower-case
variant identically. -/
theorem c5_pattern_error_witness :
    sampleView.filterByNamePattern "(" = Except.error "Unterminated group"
    ∧ sampleView.filterByNoradIdPattern "(" = Except.error "Unterminated group"
    ∧ regexIss.test "ISS (ZARYA)" = regexIss.test "iss (zarya)" := by
  have hbad := (c5_pattern_error_and_case_insensitivity sampleView "(").1
    "Unterminated group" rfl
  have hok := (c5_pattern_error_and_case_insensitivity sampleView "iss").2
    regexIss rfl
  exact ⟨hbad.1, hbad.2, hok.2.2.2 "ISS (ZARYA)" "iss (zarya)" (by decide)⟩

/-- C6: the range filters are inclusive on their bounds: a record of the
view whose field coerces exactly to the given bound (with the bounds in
order for the two-sided range) is kept. -/
theorem c6_range_bounds_inclusive (v : SatCat) (r : SatRecord)
    (y1 y2 mp ma : ℚ) (hr : r ∈ v.records) :
    (toNumber r.LAUNCH_YEAR = some y1 → y1 ≤ y2 →
      r ∈ (v.filterByLaunchYearRange y1 y2).records)
    ∧ (toNumber r.LAUNCH_YEAR = some y2 → y1 ≤ y2 →
      r ∈ (v.filterByLaunchYearRange y1 y2).records)
    ∧ (toNumber r.PERIGEE = some mp → r ∈ (v.filterByMaxPerigee mp).records)
    ∧ (toNumber r.APOGEE = some ma → r ∈ (v.filterByMinApogee ma).records) := by
  refine ⟨?_, ?_, ?_, ?_⟩
  · intro hn hle
    exact List.mem_filter.mpr ⟨hr, by simp [hn, hle]⟩
  · intro hn hle
    exact List.mem_filter.mpr ⟨hr, by simp [hn, hle]⟩
  · intro hn
    exact List.mem_filter.mpr ⟨hr, by simp [hn]⟩
  · intro hn
    exact List.mem_filter.mpr ⟨hr, by simp [hn]⟩

/-- Witness for C6: the ISS record sits exactly on the bounds
`filterByLaunchYearRange(1998, 2026)`, `filterByLaunchYearRange(1957, 1998)`,
`filterByMaxPerigee(417)` and `filterByMinApogee(423)` and is kept by each. -/
theorem c6_range_bounds_witness :
    issSat ∈ (sampleView.filterByLaunchYearRange 1998 2026).records
    ∧ issSat ∈ (sampleView.filterByLaunchYearRange 1957 1998).records
    ∧ issSat ∈ (sampleView.filterByMaxPerigee 417).records
    ∧ issSat ∈ (sampleView.filterByMinApogee 423).records := by
  have h1 := c6_range_bounds_inclusive sampleView issSat 1998 2026 417 423
    (by decide)
  have h2 := c6_range_bounds_inclusive sampleView issSat 1957 1998 417 423
    (by decide)
  exact ⟨h1.1 (by decide) (by norm_num), h2.2.1 (by decide) (by norm_num),
    h1.2.2.1 (by decide), h1.2.2.2 (by decide)⟩

/-- C7: every filter operation is idempotent: applying it twice with the
same argument gives the same view (hence the same length) as applying it
once; for the two pattern filters the second application is sequenced with
`bind`, and on a compilation error both sides are that same error. -/
theorem c7_filters_idempotent (v : SatCat) (types codes ids : List String)
    (years : List (Option ℚ)) (y1 y2 mp ma : ℚ) (pat : String) :
    (v.filterByTypes types).filterByTypes types = v.filterByTypes types
    ∧ (v.filterByCountryCodes codes).filterByCountryCodes codes
      = v.filterByCountryCodes codes
    ∧ v.filterByStillOnOrbit.filterByStillOnOrbit = v.filterByStillOnOrbit
    ∧ (v.filterByLaunchYears years).filterByLaunchYears years
      = v.filterByLaunchYears years
    ∧ (v.filterByLaunchYearRange y1 y2).filterByLaunchYearRange y1 y2
      = v.filterByLaunchYearRange y1 y2
    ∧ (v.filterByMaxPerigee mp).filterByMaxPerigee mp = v.filterByMaxPerigee mp
    ∧ (v.filterByMinApogee ma).filterByMinApogee ma = v.filterByMinApogee ma
    ∧ (v.filterByNoradIds ids).filterByNoradIds ids = v.filterByNoradIds ids
    ∧ (v.filterByNamePattern pat).bind (fun w => w.filterByNamePattern pat)
      = v.filterByNamePattern pat
    ∧ (v.filterByNoradIdPattern pat).bind (fun w => w.filterByNoradIdPattern pat)
      = v.filterByNoradIdPattern pat := by
  refine ⟨satcat_filter_idem v _, satcat_filter_idem v _, satcat_filter_idem v _,
    satcat_filter_idem v _, satcat_filter_idem v _, satcat_filter_idem v _,
    satcat_filter_idem v _, satcat_filter_idem v _, ?_, ?_⟩
  · cases hc : compileRegex pat true with
    | error e => simp [SatCat.filterByNamePattern, hc, Except.bind]
    | ok regex =>
      simp only [SatCat.filterByNamePattern, hc, Except.bind]
      exact congrArg Except.ok (satcat_filter_idem v _)
  · cases hc : compileRegex pat true with
    | error e => simp [SatCat.filterByNoradIdPattern, hc, Except.bind]
    | ok regex =>
      simp only [SatCat.filterByNoradIdPattern, hc, Except.bind]
      exact congrArg Except.ok (satcat_filter_idem v _)

/-- C8: two filters with fixed arguments applied in either order give the
same view, hence the same length — stated for arbitrary record-wise
predicates over `this.filter` (which every method of the class is an
instance of) and, concretely, for the `filterByTypes` /
`filterByCountryCodes` pair named by the claim's sources. -/
theorem c8_independent_filters_commute (v : SatCat) (p q : SatRecord → Bool)
    (types codes : List String) :
    ((v.filter p).filter q).length = ((v.filter q).filter p).length
    ∧ ((v.filterByTypes types).filterByCountryCodes codes).length
      = ((v.filterByCountryCodes codes).filterByTypes types).length :=
  ⟨congrArg SatCat.length (satcat_filter_comm v p q),
    congrArg SatCat.length (satcat_filter_comm v _ _)⟩

/-- C9: when every record's `LAUNCH_YEAR` coerces to an integer,
`filterByLaunchYearRange(start, end)` returns the same sequence of records
as `filterByLaunchYears` applied to the list of all integers from `start`
to `end`. -/
theorem c9_year_range_refines_year_list (v : SatCat) (a b : ℤ) (_hab : a ≤ b)
    (h : ∀ r ∈ v.records, ∃ n : ℤ, toNumber r.LAUNCH_YEAR = some (n : ℚ)) :
    v.filterByLaunchYearRange (a : ℚ) (b : ℚ)
      = v.filterByLaunchYears (intYears a b) := by
  refine satcat_records_inj ?_
  show v.records.filter _ = v.records.filter _
  refine List.filter_congr ?_
  intro r hr
  obtain ⟨n, hn⟩ := h r hr
  simp only [hn]
  rw [Bool.eq_iff_iff]
  simp only [Bool.and_eq_true, decide_eq_true_eq, Int.cast_le, List.elem_iff,
    mem_intYears]

/-- Witness for C9 on a one-record view whose `LAUNCH_YEAR` is the
integer-valued string `1998`, with the range 1997..1999. -/
theorem c9_year_range_witness :
    SatCat.filterByLaunchYearRange ⟨[issSat]⟩ ((1997 : ℤ) : ℚ) ((1999 : ℤ) : ℚ)
      = SatCat.filterByLaunchYears ⟨[issSat]⟩ (intYears 1997 1999) := by
  refine c9_year_range_refines_year_list ⟨[issSat]⟩ 1997 1999 (by norm_num) ?_
  intro r hrec
  refine ⟨1998, ?_⟩
  have hre : r = issSat := by simpa using hrec
  rw [hre]
  decide

/-- C10: `filterByStillOnOrbit` keeps exactly the records whose `DECAY`
field is present and `null`; strict equality `=== null` rejects both a
decay date and an absent field (`undefined`). -/
theorem c10_still_on_orbit_strict_null (v : SatCat) (r : SatRecord) :
    v.filterByStillOnOrbit.records
      = v.records.filter (fun sat => sat.DECAY == JSVal.null)
    ∧ (r ∈ v.records →
        (r ∈ v.filterByStillOnOrbit.records ↔ r.DECAY = JSVal.null))
    ∧ (r.DECAY = JSVal.undef → r ∉ v.filterByStillOnOrbit.records) := by
  refine ⟨rfl, ?_, ?_⟩
  · intro hmem
    constructor
    · intro hin
      exact eq_of_beq (List.mem_filter.mp hin).2
    · intro hnull
      exact List.mem_filter.mpr ⟨hmem, by simp [hnull]⟩
  · intro hundef hin
    have := eq_of_beq (List.mem_filter.mp hin).2
    rw [hundef] at this
    cases this

/-- Witness for C10: in the sample view the ISS (`DECAY` null) is kept,
and `numIdSat`, which has no `DECAY` field at all, is excluded exactly
like the decayed record. -/
theorem c10_still_on_orbit_witness :
    issSat ∈ sampleView.filterByStillOnOrbit.records
    ∧ numIdSat ∉ sampleView.filterByStillOnOrbit.records := by
  have h1 := (c10_still_on_orbit_strict_null sampleView issSat).2.1 (by decide)
  have h2 := (c10_still_on_orbit_strict_null sampleView numIdSat).2.2 rfl
  exact ⟨h1.mpr rfl, h2⟩
